import Mathlib

/-!
Shallow embedding of `src/tabnews_cli.py`

The program is a terminal client (TabNews CLI).  Its navigation layer lives
in `TabNewsUI`: mutable fields on the object form the navigation state, and
one prompt_toolkit key handler per key mutates them.  We embed:

* the navigation state (`UIState`) — the fields of `TabNewsUI.__init__`
  that the key handlers and renderers read or write;
* each key handler of `setup_ui` as a function on `UIState`
  (`onUp`, `onDown`, `onLeft`, `onRight`, `onEnter`, `onEscape`, `onC`);
* the HTTP layer as an `Oracle` supplying the parsed JSON value each
  `response.json()` call returns during one event (the network itself is an
  external collaborator); every issued request is recorded as a `FetchReq`
  so "which fetches an event issues" is observable;
* the renderers `get_renderable` / `display_feed` / `display_content` /
  `display_comments` as functions from state to an output, returning
  `Option` because Python dictionary indexing `d["k"]` raises `KeyError`;
  the comments-mode joined string additionally depends on the memory
  addresses of the panels allocated during the pass, made explicit in
  `display_comments_alloc`;
* `TabNewsAPI.login`.

Conventions of the embedding:
* Python ints are `Int` (so `min(len(xs) - 1, i + 1)` can be `-1`).
* Python list indexing `xs[i]` (which accepts negative indices and raises
  `IndexError` out of range) is `pyIdx`.
* JSON objects that `response.json()` produces are modelled as association
  lists of scalar values (`Json`): the program only ever reads scalar
  fields ("title", "body", "owner_username", "slug", "token") from them.
* A handler that can raise an uncaught exception returns `Option`; `none`
  means the exception escapes (crashing the prompt_toolkit application).
  Each handler also calls `self.update_view()` at the end — a method that
  does not exist on the class; that call happens after every state
  mutation shown here, so the state fields are as modelled.
-/

/-- A scalar JSON value: the program only reads string (and, in error
payloads, numeric) fields out of decoded responses. -/
inductive JVal where
  | s (v : String) : JVal
  | n (v : Int) : JVal
deriving DecidableEq

/-- A decoded JSON object, as a flat association list of scalar fields:
the shape `response.json()` has for every field this program reads. -/
def Json : Type := List (String × JVal)

instance : DecidableEq Json := by
  unfold Json
  infer_instance

/-- Python `d[k]` on a dict: the value, or `none` for `KeyError`. -/
def Json.get (j : Json) (k : String) : Option JVal :=
  (j.find? (fun p => p.1 = k)).map (·.2)

/-- Python `d[k]` when the code then needs a string (e.g. it is passed to
`rich.markdown.Markdown`): `none` models `KeyError` or a non-string value. -/
def Json.getStr (j : Json) (k : String) : Option String :=
  match j.get k with
  | some (JVal.s v) => some v
  | _ => none

/-- One item of the feed list `self.contents`: the fields the code reads
from each element of the `/contents` response. -/
structure FeedItem where
  title : String
  slug : String
  owner_username : String
deriving DecidableEq

/-- `self.view_mode`: one of the strings "feed", "content", "comments". -/
inductive ViewMode where
  | feed | content | comments
deriving DecidableEq

/-- The navigation state: the mutable fields of `TabNewsUI` that the key
handlers and renderers touch (`current_page`, `current_strategy`,
`selected_index`, `contents`, `current_content`, `view_mode`,
`content_scroll_position`, `comments`).  The remaining `__init__` fields
(`terminal_width`, `terminal_height`, `content_pages`,
`current_content_page`) are never read or written afterwards. -/
structure UIState where
  current_page : Int
  current_strategy : String
  selected_index : Int
  contents : List FeedItem
  current_content : Option Json
  view_mode : ViewMode
  content_scroll_position : Int
  comments : List Json
deriving DecidableEq

/-- The state built by `TabNewsUI.__init__`. -/
def initState : UIState where
  current_page := 1
  current_strategy := "relevant"
  selected_index := 0
  contents := []
  current_content := none
  view_mode := ViewMode.feed
  content_scroll_position := 0
  comments := []

/-- Python list indexing `xs[i]`: non-negative indices from the front,
negative indices from the back, `none` for `IndexError`. -/
def pyIdx (xs : List α) (i : Int) : Option α :=
  if 0 ≤ i then xs.get? i.toNat
  else if (-i) ≤ (xs.length : Int) then xs.get? (xs.length - (-i).toNat)
  else none

/-- The parsed JSON each `TabNewsAPI` request returns during one event.
The HTTP exchange is external; the oracle stands for
`response.json()` of the corresponding call. -/
structure Oracle where
  getContents : Int → Int → String → List FeedItem
  getContent : String → String → Json
  getComments : String → String → List Json

/-- A record of one HTTP request the event issued. -/
inductive FetchReq where
  | getContents (page per_page : Int) (strategy : String) : FetchReq
  | getContent (owner slug : String) : FetchReq
  | getComments (owner slug : String) : FetchReq
deriving DecidableEq

/-- The key events bound in `setup_ui`. -/
inductive Key where
  | up | down | left | right | enter | escape | c | q
deriving DecidableEq

/-- The `up` key handler: in feed mode `selected_index = max(0, selected_index - 1)`,
in content mode `content_scroll_position = max(0, content_scroll_position - 1)`. -/
def onUp (s : UIState) : UIState :=
  if s.view_mode = ViewMode.feed then
    { s with selected_index := max 0 (s.selected_index - 1) }
  else if s.view_mode = ViewMode.content then
    { s with content_scroll_position := max 0 (s.content_scroll_position - 1) }
  else s

/-- The `down` key handler: in feed mode
`selected_index = min(len(contents) - 1, selected_index + 1)`
(note: `-1` when `contents` is empty), in content mode the scroll grows. -/
def onDown (s : UIState) : UIState :=
  if s.view_mode = ViewMode.feed then
    { s with selected_index := min ((s.contents.length : Int) - 1) (s.selected_index + 1) }
  else if s.view_mode = ViewMode.content then
    { s with content_scroll_position := s.content_scroll_position + 1 }
  else s

/-- The `left` key handler: in feed mode with `current_page > 1`, decrement the
page, reset the selection and refetch (`fetch_contents` calls
`api.get_contents(current_page, 10, current_strategy)`). -/
def onLeft (o : Oracle) (s : UIState) : UIState × List FetchReq :=
  if s.view_mode = ViewMode.feed ∧ 1 < s.current_page then
    let p := s.current_page - 1
    ({ s with current_page := p, selected_index := 0,
              contents := o.getContents p 10 s.current_strategy },
     [FetchReq.getContents p 10 s.current_strategy])
  else (s, [])

/-- The `right` key handler: in feed mode, increment the page, reset the
selection and refetch. -/
def onRight (o : Oracle) (s : UIState) : UIState × List FetchReq :=
  if s.view_mode = ViewMode.feed then
    let p := s.current_page + 1
    ({ s with current_page := p, selected_index := 0,
              contents := o.getContents p 10 s.current_strategy },
     [FetchReq.getContents p 10 s.current_strategy])
  else (s, [])

/-- The `enter` key handler: in feed mode with a non-empty `contents` list the
code sets `view_mode = "content"` and `content_scroll_position = 0` first,
then fetches `get_content` and `get_comments` for
`contents[selected_index]` and stores the decoded results.  `none` models
an `IndexError` from `contents[selected_index]` escaping the handler. -/
def onEnter (o : Oracle) (s : UIState) : Option (UIState × List FetchReq) :=
  if s.view_mode = ViewMode.feed ∧ s.contents ≠ [] then
    match pyIdx s.contents s.selected_index with
    | none => none
    | some item =>
        some ({ s with view_mode := ViewMode.content,
                       content_scroll_position := 0,
                       current_content := some (o.getContent item.owner_username item.slug),
                       comments := o.getComments item.owner_username item.slug },
              [FetchReq.getContent item.owner_username item.slug,
               FetchReq.getComments item.owner_username item.slug])
  else some (s, [])

/-- The `escape` key handler: from content or comments mode, back to feed.
No other field is touched. -/
def onEscape (s : UIState) : UIState :=
  if s.view_mode = ViewMode.content ∨ s.view_mode = ViewMode.comments then
    { s with view_mode := ViewMode.feed }
  else s

/-- The `c` key handler: from content mode to comments mode; otherwise nothing. -/
def onC (s : UIState) : UIState :=
  if s.view_mode = ViewMode.content then
    { s with view_mode := ViewMode.comments }
  else s

/-- One key event dispatched to its handler.  The `q` key handler only calls
`event.app.exit()`, which ends the application loop without touching the
navigation state. -/
def step (o : Oracle) (s : UIState) : Key → Option (UIState × List FetchReq)
  | Key.up => some (onUp s, [])
  | Key.down => some (onDown s, [])
  | Key.left => some (onLeft o s)
  | Key.right => some (onRight o s)
  | Key.enter => onEnter o s
  | Key.escape => some (onEscape s, [])
  | Key.c => some (onC s, [])
  | Key.q => some (s, [])

/-- Run a sequence of key events from a state, each with the oracle holding
that event's response data; `none` once a handler raises. -/
def run (s : UIState) : List (Key × Oracle) → Option UIState
  | [] => some s
  | (k, o) :: rest =>
    match step o s k with
    | none => none
    | some (s', _) => run s' rest

/-- An oracle whose responses are all empty/trivial, for concrete runs. -/
def constOracle : Oracle where
  getContents := fun _ _ _ => []
  getContent := fun _ _ => []
  getComments := fun _ _ => []

/-! ## The renderer

`TabNewsUI.get_renderable` dispatches on `view_mode` to one of three
display methods.  `display_feed` and `display_content` only read the
state and return structured rich renderables, modelled structurally
below.  `display_comments` is different: it returns
`"\n".join(str(r) for r in renderables)` where each `r` is a freshly
allocated `rich.panel.Panel`; `Panel` defines neither `__str__` nor
`__repr__`, so each joined piece is the default `object.__repr__`
string, which embeds the memory address of that panel object and none of
its content.  The comments-mode output therefore depends on the
addresses the allocator hands the panels of that pass, not only on the
navigation state; `display_comments_alloc` models it with the addresses
as an explicit input.  (Downstream, `RichControl.create_content` then
renders the renderable to segments; its `get_line` iterates
`segments[i]` — a `Segment` NamedTuple, so iteration yields the tuple
fields and `s.style` on the text string raises `AttributeError` — and
pops from `s.style.class_names`, mutating style data; that layer is
cited in prose where relevant and not modelled further.) -/

/-- The renderable a display method returns: the feed table of
`display_feed` (one row per item, "→ " or "  " prefixed to the title), the
panel of `display_content` (`Panel(Markdown(body), title=title)`), or a
bare string (the `""` fallbacks, and the joined string of
`display_comments`).  `joinedPanels` is the field-level skeleton used by
the simplified `display_comments` below. -/
inductive Renderable where
  | table (rows : List String) : Renderable
  | panel (title body : String) : Renderable
  | joinedPanels (ps : List (String × String)) : Renderable
  | text (v : String) : Renderable
deriving DecidableEq

/-- `display_feed`: a table with one row per content, the selected row
marked with an arrow. -/
def display_feed (s : UIState) : Renderable :=
  Renderable.table (s.contents.enum.map
    (fun p => (if (p.1 : Int) = s.selected_index then "→" else " ") ++ " " ++ p.2.title))

/-- `display_content`: a panel of `current_content["body"]` titled
`current_content["title"]` when `current_content` is truthy (a non-`None`,
non-empty dict), else `""`.  `none` models the `KeyError` raised when the
stored object lacks one of those fields (or holds a non-string there,
which `Markdown` cannot take). -/
def display_content (s : UIState) : Option Renderable :=
  match s.current_content with
  | none => some (Renderable.text "")
  | some cc =>
    if cc = ([] : Json) then some (Renderable.text "")
    else
      match cc.getStr "body", cc.getStr "title" with
      | some b, some t => some (Renderable.panel t b)
      | _, _ => none

/-- `display_comments`, field-read skeleton: when `comments` is
non-empty, the loop reads the "body" and "owner_username" fields of each
comment (`none` models a `KeyError` on a malformed comment); else `""`.
This version records only which data the pass reads, collapsing the
joined string to the pairs read — it deliberately erases the
allocation-dependent default panel reprs that the real joined string is
made of, so it is NOT an adequate model of the produced output; the
faithful output model is `display_comments_alloc` below.  It is used
only inside `get_renderable`, whose comments branch no claim evaluates. -/
def display_comments (s : UIState) : Option Renderable :=
  if s.comments = [] then some (Renderable.text "")
  else
    (s.comments.mapM (fun (c : Json) =>
      match c.getStr "body", c.getStr "owner_username" with
      | some b, some o => some (o, b)
      | _, _ => none)).map Renderable.joinedPanels

/-- `get_renderable`: dispatch on the view mode. -/
def get_renderable (s : UIState) : Option Renderable :=
  match s.view_mode with
  | ViewMode.feed => some (display_feed s)
  | ViewMode.content => display_content s
  | ViewMode.comments => display_comments s

/-- Python `str(panel)` for a `rich.panel.Panel`: the class defines
neither `__str__` nor `__repr__`, so this is the default
`object.__repr__`, showing the memory address of the object and nothing
of its content. -/
def panelRepr (addr : String) : String :=
  "<rich.panel.Panel object at " ++ addr ++ ">"

/-- `display_comments`, faithfully: each loop iteration evaluates
`Markdown(comment["body"])` and
`Panel(markdown, title=comment["owner_username"])` (so `none` models a
`KeyError` on a malformed comment), allocating a fresh `Panel`; the
returned string is `"\n".join(str(r) for r in renderables)`, i.e. the
default reprs of the freshly allocated panels joined by newlines.
`addrs i` is the address the allocator hands the panel of the `i`-th
comment during this render pass: the output is a function of the state
TOGETHER WITH those addresses, not of the state alone. -/
def display_comments_alloc (addrs : Nat → String) (s : UIState) : Option String :=
  if s.comments = [] then some ""
  else
    (s.comments.enum.mapM (fun (p : Nat × Json) =>
      match p.2.getStr "body", p.2.getStr "owner_username" with
      | some _, some _ => some (panelRepr (addrs p.1))
      | _, _ => none)).map (String.intercalate "\n")

/-! ## `TabNewsAPI.login`

`login` posts the credentials; on HTTP status 200 it stores
`response.json().get("token")` in `self.token` and returns `True`,
otherwise it returns `False` without touching `self.token`.
`dict.get` yields `None` for a missing key, hence `Option JVal`. -/

/-- Python `d.get(k)`: the value or `None`. -/
def Json.getOpt (j : Json) (k : String) : Option JVal :=
  j.get k

/-- `TabNewsAPI.login`, given the stored token, the response status code
and the decoded response body: returns the boolean result and the token
stored afterwards. -/
def login (token : Option JVal) (status_code : Int) (body : Json) :
    Bool × Option JVal :=
  if status_code = 200 then (true, body.getOpt "token")
  else (false, token)

/-! ## Concrete states and oracles used as inputs of witnesses and
counterexamples -/

/-- A feed state holding one item, the post `hello` by user `joe`. -/
def sFeed : UIState :=
  { initState with contents := [⟨"Hello title", "hello", "joe"⟩] }

/-- The decoded body of a TabNews 404 response: an error object without a
`body` or `title` field. -/
def err404 : Json :=
  [("name", JVal.s "NotFoundError"),
   ("message", JVal.s "O conteudo informado nao foi encontrado no sistema."),
   ("status_code", JVal.n 404)]

/-- An oracle whose `get_content` request hits a 404: `response.json()`
then decodes the error payload (`TabNewsAPI.get_content` never inspects
`response.status_code`). -/
def oracle404 : Oracle where
  getContents := fun _ _ _ => []
  getContent := fun _ _ => err404
  getComments := fun _ _ => []

/-- A well-formed content-detail object. -/
def detailJson : Json :=
  [("title", JVal.s "Hello title"), ("body", JVal.s "Hello body")]

/-- A well-formed comment object. -/
def commentJson : Json :=
  [("body", JVal.s "Nice post"), ("owner_username", JVal.s "ana")]

/-- A content-mode state with a stored detail and one comment. -/
def sDetail : UIState :=
  { sFeed with
      view_mode := ViewMode.content
      current_content := some detailJson
      comments := [commentJson] }

/-- A comments-mode state with a stored detail and one comment. -/
def sComm : UIState :=
  { sDetail with view_mode := ViewMode.comments }

/-- A login response body carrying a token. -/
def body0 : Json := [("token", JVal.s "t0k")]

/-! ## Helper lemmas -/

/-- Every handler keeps `current_page ≥ 1`: only the `left` and `right`
key handlers touch the page, `left` under the guard `current_page > 1`. -/
theorem step_preserves_page (o : Oracle) (s : UIState) (k : Key)
    (s' : UIState) (fs : List FetchReq)
    (hstep : step o s k = some (s', fs)) (h : 1 ≤ s.current_page) :
    1 ≤ s'.current_page := by
  cases k <;> simp only [step] at hstep
  case up =>
    obtain ⟨rfl, rfl⟩ := by simpa using hstep
    unfold onUp
    split_ifs <;> simpa
  case down =>
    obtain ⟨rfl, rfl⟩ := by simpa using hstep
    unfold onDown
    split_ifs <;> simpa
  case left =>
    have hp : onLeft o s = (s', fs) := Option.some.inj hstep
    have hs' : s' = (onLeft o s).1 := by rw [hp]
    subst hs'
    unfold onLeft
    split_ifs with hg
    · simpa using by omega
    · simpa
  case right =>
    have hp : onRight o s = (s', fs) := Option.some.inj hstep
    have hs' : s' = (onRight o s).1 := by rw [hp]
    subst hs'
    unfold onRight
    split_ifs with hg
    · simpa using by omega
    · simpa
  case enter =>
    unfold onEnter at hstep
    split_ifs at hstep with hg
    · cases hidx : pyIdx s.contents s.selected_index with
      | none => rw [hidx] at hstep; cases hstep
      | some item =>
        rw [hidx] at hstep
        obtain ⟨rfl, rfl⟩ := by simpa using hstep
        simpa
    · obtain ⟨rfl, rfl⟩ := by simpa using hstep
      exact h
  case escape =>
    obtain ⟨rfl, rfl⟩ := by simpa using hstep
    unfold onEscape
    split_ifs <;> simpa
  case c =>
    obtain ⟨rfl, rfl⟩ := by simpa using hstep
    unfold onC
    split_ifs <;> simpa
  case q =>
    obtain ⟨rfl, rfl⟩ := by simpa using hstep
    exact h

/-- `current_page ≥ 1` is preserved along any run of key events. -/
theorem run_preserves_page (evs : List (Key × Oracle)) (s0 : UIState)
    (h0 : 1 ≤ s0.current_page) (s : UIState) (hrun : run s0 evs = some s) :
    1 ≤ s.current_page := by
  induction evs generalizing s0 with
  | nil => simp only [run] at hrun; cases hrun; exact h0
  | cons ev rest ih =>
    obtain ⟨k, o⟩ := ev
    simp only [run] at hrun
    cases hstep : step o s0 k with
    | none => rw [hstep] at hrun; cases hrun
    | some p =>
      rw [hstep] at hrun
      exact ih p.1 (step_preserves_page o s0 k p.1 p.2 hstep h0) hrun

/-! ## The claims -/

/-- Claim C1: the claim states that under MoveUp/MoveDown in Feed mode
`selected_index` never leaves `[0, len(items)-1]` (and stays `0` on an
empty items list), never going negative.  The code computes
`min(len(contents) - 1, selected_index + 1)` without clamping the first
argument, so a single `down` key event on the initial empty-feed state
drives `selected_index` to `-1` — the underflow the spec explicitly
demands be guarded against. -/
theorem movedown_empty_feed_negative_index :
    (onDown initState).selected_index = -1 ∧
    (onDown initState).selected_index < 0 := by decide

/-- Claim C2: the claim states that a failed `get_content` fetch (HTTP
404) leaves `view_mode = feed`, leaves `current_content` unset, and shows
a non-fatal error indicator.  The code instead sets
`view_mode = "content"` BEFORE the fetch and stores the decoded 404 error
payload in `current_content` (`get_content` never checks
`response.status_code`); the next render then evaluates
`current_content["body"]` on an object with no such field, raising
`KeyError` (modelled by `get_renderable = none`). -/
theorem select_http404_transitions_and_crashes :
    (step oracle404 sFeed Key.enter).map
      (fun p => (p.1.view_mode, p.1.current_content, get_renderable p.1))
      = some (ViewMode.content, some err404, none) := by decide

/-- Claim C3, counterexample: after `escape` from the content-mode state
`sDetail`, `view_mode` is back to feed, but `current_content` is still
set and `comments` still non-empty — the handler does not clear them,
refuting the claim that Back clears both. -/
theorem escape_keeps_detail_counterexample :
    (onEscape sDetail).view_mode = ViewMode.feed ∧
    ¬((onEscape sDetail).current_content = none) ∧
    ¬((onEscape sDetail).comments = []) := by decide

/-- Claim C3, amended: from Content or Comments mode, the `escape` key
event moves `view_mode` to Feed and leaves every other field unchanged;
in particular `current_content` and `comments` are NOT cleared. -/
theorem escape_to_feed_keeps_detail (s : UIState)
    (h : s.view_mode = ViewMode.content ∨ s.view_mode = ViewMode.comments) :
    (onEscape s).view_mode = ViewMode.feed ∧
    (onEscape s).current_content = s.current_content ∧
    (onEscape s).comments = s.comments ∧
    onEscape s = { s with view_mode := ViewMode.feed } := by
  unfold onEscape
  rw [if_pos h]
  exact ⟨rfl, rfl, rfl, rfl⟩

/-- Claim C3, witness: the amended theorem applied at the concrete
content-mode state `sDetail`. -/
theorem escape_to_feed_keeps_detail_witness :
    (onEscape sDetail).view_mode = ViewMode.feed ∧
    (onEscape sDetail).current_content = sDetail.current_content ∧
    (onEscape sDetail).comments = sDetail.comments ∧
    onEscape sDetail = { sDetail with view_mode := ViewMode.feed } :=
  escape_to_feed_keeps_detail sDetail (Or.inl rfl)

/-- Claim C4: in feed mode with a non-empty items list whose selected
index denotes `items[selected_index]`, the `enter` key event issues
exactly the two fetches `get_content(owner, slug)` and
`get_comments(owner, slug)` of that item, resets the scroll position to
`0`, and the resulting view mode is Content, with the fetched data
stored. -/
theorem select_fetches_selected_item (o : Oracle) (s : UIState)
    (item : FeedItem)
    (hmode : s.view_mode = ViewMode.feed)
    (hne : s.contents ≠ [])
    (hsel : pyIdx s.contents s.selected_index = some item) :
    step o s Key.enter = some
      ({ s with view_mode := ViewMode.content,
                content_scroll_position := 0,
                current_content := some (o.getContent item.owner_username item.slug),
                comments := o.getComments item.owner_username item.slug },
       [FetchReq.getContent item.owner_username item.slug,
        FetchReq.getComments item.owner_username item.slug]) := by
  simp [step, onEnter, hmode, hne, hsel]

/-- Claim C4, witness: `enter` at the one-item feed state `sFeed` issues
the fetches for `("joe", "hello")`. -/
theorem select_fetches_selected_item_witness :
    step constOracle sFeed Key.enter = some
      ({ sFeed with view_mode := ViewMode.content,
                    content_scroll_position := 0,
                    current_content := some (constOracle.getContent "joe" "hello"),
                    comments := constOracle.getComments "joe" "hello" },
       [FetchReq.getContent "joe" "hello",
        FetchReq.getComments "joe" "hello"]) :=
  select_fetches_selected_item constOracle sFeed
    ⟨"Hello title", "hello", "joe"⟩ rfl (by decide) (by decide)

/-- Claim C5: (1) `current_page ≥ 1` holds in every state reachable from
the initial state by any sequence of key events with arbitrary per-event
response data; (2) when `current_page = 1` the `left` key event is a
no-op — the state (page, selection, items, everything) is returned
unchanged and no fetch is issued. -/
theorem page_ge_one_and_pageback_noop :
    (∀ (evs : List (Key × Oracle)) (s : UIState),
       run initState evs = some s → 1 ≤ s.current_page) ∧
    (∀ (o : Oracle) (s : UIState), s.current_page = 1 →
       step o s Key.left = some (s, [])) := by
  constructor
  · intro evs s hrun
    exact run_preserves_page evs initState (by decide) s hrun
  · intro o s h
    simp [step, onLeft, h]

/-- Claim C5, witness: part (1) at the concrete two-event run `right`
then `left`, part (2) at the initial state. -/
theorem page_ge_one_and_pageback_noop_witness :
    1 ≤ ((run initState [(Key.right, constOracle), (Key.left, constOracle)]).getD
          initState).current_page ∧
    step constOracle initState Key.left = some (initState, []) := by
  constructor
  · exact page_ge_one_and_pageback_noop.1
      [(Key.right, constOracle), (Key.left, constOracle)] _ (by decide)
  · exact page_ge_one_and_pageback_noop.2 constOracle initState (by decide)

/-- Claim C6: in feed mode with an empty items list, the `enter` key
event is a no-op — the very same state is returned (every field
unchanged, still Feed mode) and no fetch is issued. -/
theorem select_empty_feed_noop (o : Oracle) (s : UIState)
    (hmode : s.view_mode = ViewMode.feed) (hempty : s.contents = []) :
    step o s Key.enter = some (s, []) := by
  simp [step, onEnter, hmode, hempty]

/-- Claim C6, witness: `enter` at the initial (empty-feed) state. -/
theorem select_empty_feed_noop_witness :
    step constOracle initState Key.enter = some (initState, []) :=
  select_empty_feed_noop constOracle initState rfl rfl

/-- Claim C7: the `c` key event moves Content mode to Comments mode; in
any other mode it leaves the state unchanged; and the `escape` key event
in Comments mode moves the view mode to Feed. -/
theorem show_comments_guard (s : UIState) :
    (s.view_mode = ViewMode.content →
       onC s = { s with view_mode := ViewMode.comments }) ∧
    (s.view_mode ≠ ViewMode.content → onC s = s) ∧
    (s.view_mode = ViewMode.comments → (onEscape s).view_mode = ViewMode.feed) := by
  refine ⟨fun h => ?_, fun h => ?_, fun h => ?_⟩
  · simp [onC, h]
  · simp [onC, h]
  · simp [onEscape, h]

/-- Claim C7, witness: `c` at the content-mode state `sDetail`, `c` at
the feed-mode initial state, `escape` at the comments-mode state
`sComm`. -/
theorem show_comments_guard_witness :
    onC sDetail = { sDetail with view_mode := ViewMode.comments } ∧
    onC initState = initState ∧
    (onEscape sComm).view_mode = ViewMode.feed :=
  ⟨(show_comments_guard sDetail).1 rfl,
   (show_comments_guard initState).2.1 (by decide),
   (show_comments_guard sComm).2.2 rfl⟩

/-- Claim C8: the claim (and the spec renderer contract it quotes) states
that rendering is a pure, idempotent function of the navigation state —
identical output when the same state is rendered twice with no mutation
in between, and no side effects.  The code breaks this in comments mode:
`display_comments` returns `"\n".join(str(r) for r in renderables)`, and
`str` of a `rich.panel.Panel` is the default `object.__repr__`, a string
embedding the memory address of the freshly allocated panel.  The output
of a pass over the one-comment state `sComm` is exactly the default repr
of the panel that pass allocates, so a first pass whose panel sits at
`0x7f0000000100` and a second pass (same state, nothing mutated in
between) whose panel sits at `0x7f0000000200` produce different output —
the renderer is not a function of the `NavigationState` at all.
(The segment layer cited alongside, `RichControl.create_content`, is
further from the claim: its `get_line` iterates a `Segment` NamedTuple,
hitting `s.style` on a plain string — `AttributeError` — and pops from
`s.style.class_names`, mutating style data.) -/
theorem comments_render_embeds_addresses :
    display_comments_alloc (fun _ => "0x7f0000000100") sComm =
      some (panelRepr "0x7f0000000100") ∧
    display_comments_alloc (fun _ => "0x7f0000000100") sComm ≠
      display_comments_alloc (fun _ => "0x7f0000000200") sComm := by decide

/-- Claim C9: `login` returns `True` exactly when the HTTP status is 200,
and then stores `response.json().get("token")`; on any other status it
returns `False` and the previously stored token is unchanged. -/
theorem login_boolean_outcome (token : Option JVal) (status_code : Int)
    (body : Json) :
    ((login token status_code body).1 = true ↔ status_code = 200) ∧
    (status_code = 200 → (login token status_code body).2 = body.getOpt "token") ∧
    (status_code ≠ 200 → (login token status_code body).2 = token) := by
  unfold login
  split_ifs with h <;> simp [h]

/-- Claim C9, witness: a 200 response stores the token of the body; a 404
response keeps the previously stored token. -/
theorem login_boolean_outcome_witness :
    (login none 200 body0).2 = body0.getOpt "token" ∧
    (login (some (JVal.s "old")) 404 body0).2 = some (JVal.s "old") :=
  ⟨(login_boolean_outcome none 200 body0).2.1 rfl,
   (login_boolean_outcome (some (JVal.s "old")) 404 body0).2.2 (by decide)⟩

/-- Claim C10: in comments mode, each key event other than `escape` and
`q` — up, down, left, right, enter, c — returns the state with every
field unchanged and issues no fetch. -/
theorem comments_mode_frame (o : Oracle) (s : UIState) (k : Key)
    (hmode : s.view_mode = ViewMode.comments)
    (hk : k = Key.up ∨ k = Key.down ∨ k = Key.left ∨ k = Key.right ∨
          k = Key.enter ∨ k = Key.c) :
    step o s k = some (s, []) := by
  rcases hk with rfl | rfl | rfl | rfl | rfl | rfl <;>
    simp [step, onUp, onDown, onLeft, onRight, onEnter, onC, hmode]

/-- Claim C10, witness: the up key at the comments-mode state `sComm`. -/
theorem comments_mode_frame_witness :
    step constOracle sComm Key.up = some (sComm, []) :=
  comments_mode_frame constOracle sComm Key.up rfl (Or.inl rfl)
